import Mathlib

/-!
Verification of the openhue-raycast HTTP client, credential resolver and
resource accessors, shallowly embedded from the TypeScript sources
(`src/api/client.ts`, `src/api/auth.ts`, `src/api/scenes.ts`,
`src/api/lights.ts`, `src/api/rooms.ts`, `src/api/fetch-adapter.ts`).
-/

namespace OpenHue

/-- A JSON value, as produced by a successful `JSON.parse`. Numbers are
modelled as integers (the fields the client inspects — array lengths and
status codes — are integral). -/
inductive JValue where
  | null
  | bool (b : Bool)
  | num (n : Int)
  | str (s : String)
  | arr (elems : List JValue)
  | obj (fields : List (String × JValue))
deriving Repr

/-- A JavaScript expression value: `none` is `undefined`, `some v` a JSON
value. (`undefined` never occurs inside parsed JSON, only as the result of
a property lookup.) -/
abbrev JSVal := Option JValue

/-- Field lookup in a JS object literal: first binding wins, missing field
is `undefined`. -/
def objField (fields : List (String × JValue)) (k : String) : Option JValue :=
  (fields.find? (fun p => p.1 = k)).map (fun p => p.2)

/-- JS property access `v[k]` (for a string key). Accessing a property of
`null` or `undefined` throws a `TypeError` (the `.error` case); on other
values it yields the property or `undefined`. Only `length` is modelled on
arrays and strings, matching the sole property the client reads. -/
def getProp : JSVal → String → Except Unit JSVal
  | none, _ => .error ()
  | some .null, _ => .error ()
  | some (.obj fields), k => .ok (objField fields k)
  | some (.arr elems), k => if k = "length" then .ok (some (.num elems.length)) else .ok none
  | some (.str s), k => if k = "length" then .ok (some (.num s.length)) else .ok none
  | some (.bool _), _ => .ok none
  | some (.num _), _ => .ok none

/-- JS numeric index access `v[i]`. Throws on `null`/`undefined`, yields the
element (or `undefined` past the end) on arrays, the one-character string on
strings, the `toString i` field on objects, `undefined` otherwise. -/
def jsIndex : JSVal → Nat → Except Unit JSVal
  | none, _ => .error ()
  | some .null, _ => .error ()
  | some (.arr elems), i => .ok (elems.get? i)
  | some (.str s), i => .ok ((s.toList.get? i).map (fun c => .str (String.singleton c)))
  | some (.obj fields), i => .ok (objField fields (toString i))
  | some (.bool _), _ => .ok none
  | some (.num _), _ => .ok none

/-- JS truthiness of an expression value. -/
def truthy : JSVal → Bool
  | none => false
  | some .null => false
  | some (.bool b) => b
  | some (.num n) => n ≠ 0
  | some (.str s) => s ≠ ""
  | some (.arr _) => true
  | some (.obj _) => true

/-- The JS comparison `v > 0`, for the values that can reach it in this code
path: the result of a `.length` read, which is a number or `undefined`
except for object payloads carrying an explicit `length` member (whose
string-coercion corner is not modelled, as no theorem's scope reaches it). -/
def jsGtZero : JSVal → Bool
  | some (.num n) => 0 < n
  | some (.bool b) => b
  | _ => false

/-- The condition-and-extraction of `client.ts:153-155`:
`parsed.errors && parsed.errors.length > 0`, and on success the pair
`(parsed.errors[0].description, parsed.errors)`. Runs inside the handler's
`try`, so a thrown `TypeError` (`.error`) is caught by the parse-error
branch. -/
def errCheckExpr (parsed : JValue) : Except Unit (Option (JSVal × JSVal)) :=
  match getProp (some parsed) "errors" with
  | .error u => .error u
  | .ok e =>
    if truthy e then
      match getProp e "length" with
      | .error u => .error u
      | .ok len =>
        if jsGtZero len then
          match jsIndex e 0 with
          | .error u => .error u
          | .ok first =>
            match getProp first "description" with
            | .error u => .error u
            | .ok desc => .ok (some (desc, e))
        else
          .ok none
    else
      .ok none

/-- Outcome of one `hueRequest` call: which `resolve`/`reject` site of
`client.ts` fired, with the data that site carries. All rejections are
`HueApiError`s in the source; the constructors record the distinguishing
message shape and fields. -/
inductive HueOutcome where
  | success (payload : JValue)
  | apiError (description : JSVal) (statusCode : Nat) (errors : JSVal)
  | httpError (statusCode : Nat) (preview : String)
  | parseError (statusCode : Nat) (preview : String)
  | connectionError (message : String)
  | timeoutError
deriving Repr

/-- The parse-error preview of `client.ts:161`:
`data.substring(0, 300).replace(/\n/g, " ")`. -/
def parsePreview (data : String) : String :=
  (data.take 300).replace "\n" " "

/-- The `res.on("end")` handler of `hueRequest` (`client.ts:142-164`):
HTTP-status check first, then `JSON.parse` (`parsed = none` models a parse
throw), then the embedded-errors check; any throw inside the `try` lands in
the parse-error branch. -/
def responseEnd (statusCode : Nat) (data : String) (parsed : Option JValue) : HueOutcome :=
  if statusCode ≥ 400 then
    .httpError statusCode (data.take 200)
  else
    match parsed with
    | none => .parseError statusCode (parsePreview data)
    | some v =>
      match errCheckExpr v with
      | .error _ => .parseError statusCode (parsePreview data)
      | .ok (some (desc, errs)) => .apiError desc statusCode errs
      | .ok none => .success v

/-- A network-level event terminating one `hueRequest`: an `error` event on
the request, the 15-second timeout, or a complete response (status code and
accumulated body). -/
inductive NetEvent where
  | connError (message : String)
  | timeout
  | response (statusCode : Nat) (data : String)

/-- Result of one `hueRequest`: whether the socket was destroyed
(`req.destroy()` runs only in the timeout handler) and which outcome was
delivered. -/
structure ReqResult where
  destroyed : Bool
  outcome : HueOutcome

/-- `hueRequest`'s promise behaviour (`client.ts:135-180`) as a function of
the terminating network event; `parse` is the external `JSON.parse`
primitive (`none` = throws). -/
def hueRequestModel (parse : String → Option JValue) : NetEvent → ReqResult
  | .connError m => ⟨false, .connectionError ("Connection failed: " ++ m)⟩
  | .timeout => ⟨true, .timeoutError⟩
  | .response sc data => ⟨false, responseEnd sc data (parse data)⟩

/-- `req.setTimeout(15000, ...)` in `hueRequest` (`client.ts:171`). -/
def hueRequestTimeoutMs : Nat := 15000

/-- `req.setTimeout(10000, ...)` in `authenticate` (`auth.ts:64`). -/
def authenticateTimeoutMs : Nat := 10000

/-- Outcome of one pairing call (`authenticate`, `auth.ts:16-72`); only the
cases a claim touches are distinguished. -/
inductive AuthOutcome where
  | resolved (first : JValue)
  | rejected (message : String)
deriving Repr

/-- The timeout handler of `authenticate` (`auth.ts:64-67`): destroys the
socket and rejects with "Connection timeout". -/
def authenticateTimeoutResult : Bool × AuthOutcome :=
  (true, .rejected "Connection timeout")

/-- Resolved bridge credentials (`client.ts:58`). -/
structure Credentials where
  bridgeIP : String
  applicationKey : String
deriving Repr, DecidableEq

/-- The Raycast extension preferences consulted by `getCredentials`
(`client.ts:60`); `none` models an unset preference, and the empty string is
falsy like in JS. -/
structure Preferences where
  bridgeIP : Option String
  applicationKey : Option String
deriving Repr, DecidableEq

/-- JS truthiness of an optional string preference or YAML scalar
(`undefined` and `""` are falsy). -/
def truthyStr : Option String → Bool
  | none => false
  | some s => s ≠ ""

/-- Outcome of `parseYaml` on the config-file content: a parse throw, the
YAML `null` document (e.g. an empty file), or a mapping with optional
`bridge` and `key` scalars (scalars modelled as strings, the type both the
config schema and the claims use). -/
inductive YamlParse where
  | failed
  | nullDoc
  | doc (bridge : Option String) (key : Option String)
deriving Repr, DecidableEq

/-- State of `~/.openhue/config.yaml` as observed by `loadOpenHueConfig`:
missing (`existsSync` false), unreadable (`readFileSync` throws), or present
with the given `parseYaml` outcome. -/
inductive FileState where
  | absent
  | unreadable
  | content (p : YamlParse)
deriving Repr, DecidableEq

/-- `loadOpenHueConfig` (`client.ts:31-51`): returns `null` when the file is
missing, and the surrounding `try`/`catch` turns a read failure, a YAML
parse failure, or property access on a `null` document into `null`; a parsed
mapping yields credentials only when both `bridge` and `key` are truthy. -/
def loadOpenHueConfig : FileState → Option Credentials
  | .absent => none
  | .unreadable => none
  | .content .failed => none
  | .content .nullDoc => none
  | .content (.doc bridge key) =>
    if truthyStr bridge ∧ truthyStr key then
      some ⟨bridge.getD "", key.getD ""⟩
    else
      none

/-- `getCredentials` (`client.ts:58-71`): the preference pair when both
fields are truthy, otherwise whatever `loadOpenHueConfig` yields. -/
def getCredentials (prefs : Preferences) (file : FileState) : Option Credentials :=
  if truthyStr prefs.bridgeIP ∧ truthyStr prefs.applicationKey then
    some ⟨prefs.bridgeIP.getD "", prefs.applicationKey.getD ""⟩
  else
    loadOpenHueConfig file

/-- A `ResourceIdentifier`-style reference `{rid, rtype}`. -/
structure ResourceRef where
  rid : String
  rtype : String
deriving Repr, DecidableEq

/-- The hand-written `Scene` as used by `scenes.ts` (`scene.group.rid` is
read without optional chaining, so `group` is a required member; fields the
claims never read are omitted). -/
structure Scene where
  id : String
  group : ResourceRef
deriving Repr, DecidableEq

/-- The generated `SceneGet` as used by the generated-client scene module
(`scene.group?.rid`, so `group` is optional). -/
structure SceneGet where
  id : String
  group : Option ResourceRef
deriving Repr, DecidableEq

/-- The injection of the hand-written scene shape into the generated one. -/
def Scene.toGen (s : Scene) : SceneGet :=
  ⟨s.id, some s.group⟩

/-- `Map.prototype.get`, on the insertion-ordered association-list model of
a JS `Map`. -/
def mapGet (m : List (String × α)) (k : String) : Option α :=
  (m.find? (fun p => p.1 = k)).map (fun p => p.2)

/-- `Map.prototype.set`: overwrites in place the binding whose key is
present (the maps built here never hold duplicate keys), appends otherwise
(JS `Map`s preserve insertion order). -/
def mapSet : List (String × α) → String → α → List (String × α)
  | [], k, v => [(k, v)]
  | p :: rest, k, v => if p.1 = k then (k, v) :: rest else p :: mapSet rest k v

/-- One iteration of the hand-written `groupScenesByRoom` loop
(`scenes.ts:37-42`): read `scene.group.rid`, extend that bucket. -/
def groupHandStep (m : List (String × List Scene)) (scene : Scene) : List (String × List Scene) :=
  let roomId := scene.group.rid
  mapSet m roomId ((mapGet m roomId).getD [] ++ [scene])

/-- `groupScenesByRoom` of the hand-written module (`scenes.ts:34-45`):
buckets every scene by `scene.group.rid`, appending to the existing bucket. -/
def groupScenesByRoom (scenes : List Scene) : List (String × List Scene) :=
  scenes.foldl groupHandStep []

/-- The room id a scene contributes to in the generated-client
`groupScenesByRoom`: `const roomId = scene.group?.rid; if (!roomId) continue;`
— `none` when the scene is skipped (missing group or empty rid). -/
def keepGen (s : SceneGet) : Option String :=
  match s.group with
  | none => none
  | some g => if g.rid = "" then none else some g.rid

/-- One iteration of the generated-client `groupScenesByRoom` loop: skip the
scene when `group?.rid` is falsy, otherwise extend that bucket. -/
def groupGenStep (m : List (String × List SceneGet)) (scene : SceneGet) :
    List (String × List SceneGet) :=
  match keepGen scene with
  | none => m
  | some roomId => mapSet m roomId ((mapGet m roomId).getD [] ++ [scene])

/-- `groupScenesByRoom` of the generated-client scene module: scenes whose
`group?.rid` is falsy are skipped, the rest bucketed by rid. -/
def groupScenesByRoomGen (scenes : List SceneGet) : List (String × List SceneGet) :=
  scenes.foldl groupGenStep []

/-- The hand-written `ApiResponse<T>` as used by `scenes.ts`: a required
`data` array. -/
structure ApiResponse (α : Type) where
  data : List α
deriving Repr, DecidableEq

/-- The generated response shape as used by `lights.ts`/`rooms.ts` and the
generated-client scene module: `data` is optional (`response.data || []`,
`response.data?.[0] ?? null`). -/
structure GenApiResponse (α : Type) where
  data : Option (List α)
deriving Repr, DecidableEq

/-- `getScene`'s projection of a successful response (`scenes.ts:13`):
`response.data[0] ?? null`. -/
def getSceneResult (r : ApiResponse Scene) : Option Scene :=
  r.data.head?

/-- `getScenes`'s projection (`scenes.ts:8`): `response.data`. -/
def getScenesResult (r : ApiResponse Scene) : List Scene :=
  r.data

/-- The generated `LightGet` restricted to the members the accessors read. -/
structure LightGet where
  id : String
deriving Repr, DecidableEq

/-- `getLight`'s projection of a successful response (`lights.ts:40`):
`response.data?.[0] ?? null`. -/
def getLightResult (r : GenApiResponse LightGet) : Option LightGet :=
  (r.data.getD []).head?

/-- Generated-path `getScene` projection (`response.data?.[0] ?? null`). -/
def getSceneResultGen (r : GenApiResponse SceneGet) : Option SceneGet :=
  (r.data.getD []).head?

/-- Generated-path `getScenes` projection (`response.data || []`). -/
def getScenesResultGen (r : GenApiResponse SceneGet) : List SceneGet :=
  r.data.getD []

/-- Modelled from the spec: the generated `SceneApi` (its source is not in
the repository snapshot) is "a mechanical adapter over the same request
function", so its response hands the transport's payload through unchanged,
in the generated response shape. -/
def sceneApiResponse (r : ApiResponse Scene) : GenApiResponse SceneGet :=
  ⟨some (r.data.map Scene.toGen)⟩

/-- `updateScene`'s projection of a successful response (`scenes.ts:18`):
`response.data`, the bridge's acknowledgment identifiers. -/
def updateSceneResult (r : ApiResponse ResourceRef) : List ResourceRef :=
  r.data

/-- Generated-path `updateScene` projection (`response.data || []`). -/
def updateSceneResultGen (r : GenApiResponse ResourceRef) : List ResourceRef :=
  r.data.getD []

/-- Modelled from the spec: the generated `SceneApi`'s update call (absent
from the snapshot) hands the transport's identifier payload through
unchanged, in the generated response shape. -/
def sceneApiIdentResponse (r : ApiResponse ResourceRef) : GenApiResponse ResourceRef :=
  ⟨some r.data⟩

/-- The `recall` object built by `activateScene`: the chosen action, with
`duration` present only when the caller passed one (`recall.duration` is
assigned only under `duration !== undefined`). -/
structure Recall where
  action : String
  duration : Option Int := none
deriving Repr, DecidableEq

/-- The `ScenePut` body handed to `updateScene` by `activateScene`. -/
structure ScenePut where
  «recall» : Recall
deriving Repr, DecidableEq

/-- `activateScene` of the hand-written module (`scenes.ts:21-31`): builds
`{ recall: { action } }`, adds `duration` only when defined, and hands the
body to `updateScene`. -/
def activateSceneBody (action : String) (duration : Option Int) : ScenePut :=
  ⟨{ action := action, duration := duration }⟩

/-- `activateScene` of the generated-client module (the same construction,
character for character): builds `{ recall: { action } }`, adds `duration`
only when defined, and hands the body to its `updateScene`. -/
def activateSceneBodyGen (action : String) (duration : Option Int) : ScenePut :=
  ⟨{ action := action, duration := duration }⟩

/-- `getScenes` of the hand-written module with its error channel
(`scenes.ts:6-9`): `await hueGet` re-raises a transport rejection
unchanged, a resolved response is projected to its `data`. -/
def getScenesE {ε : Type} (t : Except ε (ApiResponse Scene)) : Except ε (List Scene) :=
  t.map getScenesResult

/-- `getScene` of the hand-written module with its error channel
(`scenes.ts:11-14`). -/
def getSceneE {ε : Type} (t : Except ε (ApiResponse Scene)) : Except ε (Option Scene) :=
  t.map getSceneResult

/-- `updateScene` of the hand-written module with its error channel
(`scenes.ts:16-19`). -/
def updateSceneE {ε : Type} (t : Except ε (ApiResponse ResourceRef)) :
    Except ε (List ResourceRef) :=
  t.map updateSceneResult

/-- Modelled from the spec: the generated `SceneApi` call chain (absent
from the snapshot) wraps the same transport through the adapter, so it
surfaces a transport failure as an error and a success payload unchanged. -/
def sceneApiCallE {ε : Type} (t : Except ε (ApiResponse Scene)) :
    Except ε (GenApiResponse SceneGet) :=
  t.map sceneApiResponse

/-- Modelled from the spec: the generated `SceneApi`'s update call chain,
likewise a pass-through of the transport's outcome. -/
def sceneApiIdentCallE {ε : Type} (t : Except ε (ApiResponse ResourceRef)) :
    Except ε (GenApiResponse ResourceRef) :=
  t.map sceneApiIdentResponse

/-- `getScenes` of the generated-client module with its error channel:
`await api.getScenes()` re-raises a failure, a resolved response is
projected by `response.data || []`. -/
def getScenesGenE {ε : Type} (t : Except ε (ApiResponse Scene)) : Except ε (List SceneGet) :=
  (sceneApiCallE t).map getScenesResultGen

/-- `getScene` of the generated-client module with its error channel
(projection `response.data?.[0] ?? null`). -/
def getSceneGenE {ε : Type} (t : Except ε (ApiResponse Scene)) : Except ε (Option SceneGet) :=
  (sceneApiCallE t).map getSceneResultGen

/-- `updateScene` of the generated-client module with its error channel
(projection `response.data || []`). -/
def updateSceneGenE {ε : Type} (t : Except ε (ApiResponse ResourceRef)) :
    Except ε (List ResourceRef) :=
  (sceneApiIdentCallE t).map updateSceneResultGen

/-- `{ on: { on } }` bodies. -/
structure OnBody where
  «on» : Bool
deriving Repr, DecidableEq

/-- `{ dimming: { brightness } }` bodies; JS numbers modelled as rationals
(the clamp does no arithmetic, only comparisons). -/
structure DimmingBody where
  brightness : ℚ
deriving Repr, DecidableEq

/-- `{ color_temperature: { mirek } }` bodies. -/
structure MirekBody where
  mirek : ℚ
deriving Repr, DecidableEq

/-- The `LightPut` partial body handed to `updateLight`; absent members are
omitted from the PUT. -/
structure LightPut where
  «on» : Option OnBody := none
  dimming : Option DimmingBody := none
  color_temperature : Option MirekBody := none
deriving Repr, DecidableEq

/-- The `GroupedLightPut` partial body handed to `updateGroupedLight`. -/
structure GroupedLightPut where
  «on» : Option OnBody := none
  dimming : Option DimmingBody := none
deriving Repr, DecidableEq

/-- `setLightBrightness` (`lights.ts:53-57`): the PUT body it hands to
`updateLight`, with `Math.max(1, Math.min(100, brightness))`. -/
def setLightBrightnessBody (brightness : ℚ) : LightPut :=
  { dimming := some ⟨max 1 (min 100 brightness)⟩ }

/-- `setLightColorTemperature` (`lights.ts:63-67`): the PUT body, with
`Math.max(153, Math.min(500, mirek))`. -/
def setLightColorTemperatureBody (mirek : ℚ) : LightPut :=
  { color_temperature := some ⟨max 153 (min 500 mirek)⟩ }

/-- `setRoomBrightness` (`rooms.ts:77-80`): the PUT body it hands to
`updateGroupedLight`, with `Math.max(1, Math.min(100, brightness))`. -/
def setRoomBrightnessBody (brightness : ℚ) : GroupedLightPut :=
  { dimming := some ⟨max 1 (min 100 brightness)⟩ }

/-- String escaping of `JSON.stringify` for the characters the adapter's
bodies can contain (backslash, quote, newline; other control characters do
not arise in the modelled messages). -/
def escapeJson (s : String) : String :=
  ((s.replace "\\" "\\\\").replace "\"" "\\\"").replace "\n" "\\n"

mutual

/-- `JSON.stringify` on a JSON value (no spacing, insertion order kept). -/
def stringify : JValue → String
  | .null => "null"
  | .bool true => "true"
  | .bool false => "false"
  | .num n => toString n
  | .str s => "\"" ++ escapeJson s ++ "\""
  | .arr elems => "[" ++ stringifyList elems ++ "]"
  | .obj fields => "\x7b" ++ stringifyFields fields ++ "\x7d"

/-- Comma-joined serialization of array elements. -/
def stringifyList : List JValue → String
  | [] => ""
  | [v] => stringify v
  | v :: rest => stringify v ++ "," ++ stringifyList rest

/-- Comma-joined serialization of object members. -/
def stringifyFields : List (String × JValue) → String
  | [] => ""
  | [(k, v)] => "\"" ++ escapeJson k ++ "\":" ++ stringify v
  | (k, v) :: rest => "\"" ++ escapeJson k ++ "\":" ++ stringify v ++ "," ++ stringifyFields rest

end

/-- The `errors` member of a parsed payload, for stating the classification:
present only on object payloads. -/
def errorsMember : JValue → Option JValue
  | .obj fields => objField fields "errors"
  | _ => none

/-- The `description` member of an error entry: present only on object
entries, JS `undefined` otherwise. -/
def descMember : JValue → JSVal
  | .obj fields => objField fields "description"
  | _ => none

theorem mapGet_nil {α : Type} (r : String) : mapGet ([] : List (String × α)) r = none :=
  rfl

theorem mapGet_cons {α : Type} (p : String × α) (l : List (String × α)) (r : String) :
    mapGet (p :: l) r = if p.1 = r then some p.2 else mapGet l r := by
  by_cases h : p.1 = r <;> simp [mapGet, List.find?_cons, h]

theorem mapGet_mapSet {α : Type} (m : List (String × α)) (k r : String) (v : α) :
    mapGet (mapSet m k v) r = if r = k then some v else mapGet m r := by
  induction m with
  | nil =>
    rcases eq_or_ne r k with h | h
    · simp [mapSet, mapGet_cons, mapGet_nil, h]
    · simp [mapSet, mapGet_cons, mapGet_nil, h, Ne.symm h]
  | cons p rest ih =>
    by_cases hpk : p.1 = k
    · rcases eq_or_ne r k with h | h
      · simp [mapSet, hpk, mapGet_cons, h]
      · have hpr : p.1 ≠ r := fun hc => h (hc.symm.trans hpk)
        simp [mapSet, hpk, mapGet_cons, h, Ne.symm h, hpr]
    · by_cases hpr : p.1 = r
      · have hrk : r ≠ k := fun h => hpk (hpr.trans h)
        simp [mapSet, hpk, mapGet_cons, hpr, hrk]
      · simp [mapSet, hpk, mapGet_cons, hpr, ih]

/-- Bucket lookup after folding the generated-client grouping step over a
scene list: the kept scenes with room id `r`, in encounter order, appended
to whatever the accumulator already held for `r`. -/
theorem foldGen_mapGet (scenes : List SceneGet) (m : List (String × List SceneGet)) (r : String) :
    mapGet (scenes.foldl groupGenStep m) r =
      match mapGet m r with
      | some ex => some (ex ++ scenes.filter (fun s => keepGen s = some r))
      | none =>
        if (scenes.filter (fun s => keepGen s = some r)).isEmpty then none
        else some (scenes.filter (fun s => keepGen s = some r)) := by
  induction scenes generalizing m with
  | nil => cases h : mapGet m r <;> simp [h]
  | cons s rest ih =>
    rw [List.foldl_cons]
    cases hk : keepGen s with
    | none =>
      have step : groupGenStep m s = m := by simp [groupGenStep, hk]
      rw [step, ih]
      simp [List.filter_cons, hk]
    | some q =>
      have step : groupGenStep m s = mapSet m q ((mapGet m q).getD [] ++ [s]) := by
        simp [groupGenStep, hk]
      rw [step, ih]
      by_cases hqr : q = r
      · subst hqr
        rw [mapGet_mapSet, if_pos rfl]
        cases h : mapGet m q <;> simp [List.filter_cons, hk, h]
      · rw [mapGet_mapSet, if_neg (Ne.symm hqr)]
        cases h : mapGet m r <;> simp [List.filter_cons, hk, hqr, h]

/-- Bucket lookup after folding the hand-written grouping step: the scenes
whose `group.rid` is `r`, in encounter order, appended to the accumulator's
bucket. -/
theorem foldHand_mapGet (scenes : List Scene) (m : List (String × List Scene)) (r : String) :
    mapGet (scenes.foldl groupHandStep m) r =
      match mapGet m r with
      | some ex => some (ex ++ scenes.filter (fun s => s.group.rid = r))
      | none =>
        if (scenes.filter (fun s => s.group.rid = r)).isEmpty then none
        else some (scenes.filter (fun s => s.group.rid = r)) := by
  induction scenes generalizing m with
  | nil => cases h : mapGet m r <;> simp [h]
  | cons s rest ih =>
    rw [List.foldl_cons]
    have step : groupHandStep m s =
        mapSet m s.group.rid ((mapGet m s.group.rid).getD [] ++ [s]) := rfl
    rw [step, ih]
    by_cases hqr : s.group.rid = r
    · subst hqr
      rw [mapGet_mapSet, if_pos rfl]
      cases h : mapGet m s.group.rid <;> simp [List.filter_cons, h]
    · rw [mapGet_mapSet, if_neg (Ne.symm hqr)]
      cases h : mapGet m r <;> simp [List.filter_cons, hqr, h]

/-- C5: both brightness setters put `max(1, min(100, b))` into the PUT
body's `dimming.brightness`; `0 ↦ 1`, `150 ↦ 100`, `50 ↦ 50`; the
transmitted value always lies in `[1, 100]`, and the setters are total
functions of the input (out-of-range inputs are clamped, never rejected). -/
theorem brightness_setters_clamp (b : ℚ) :
    (setLightBrightnessBody b).dimming = some ⟨max 1 (min 100 b)⟩ ∧
    (setRoomBrightnessBody b).dimming = some ⟨max 1 (min 100 b)⟩ ∧
    (setLightBrightnessBody 0).dimming = some ⟨1⟩ ∧
    (setLightBrightnessBody 150).dimming = some ⟨100⟩ ∧
    (setLightBrightnessBody 50).dimming = some ⟨50⟩ ∧
    (setRoomBrightnessBody 0).dimming = some ⟨1⟩ ∧
    (setRoomBrightnessBody 150).dimming = some ⟨100⟩ ∧
    (setRoomBrightnessBody 50).dimming = some ⟨50⟩ ∧
    1 ≤ ((setLightBrightnessBody b).dimming.getD ⟨0⟩).brightness ∧
    ((setLightBrightnessBody b).dimming.getD ⟨0⟩).brightness ≤ 100 := by
  refine ⟨rfl, rfl, by decide, by decide, by decide, by decide, by decide, by decide, ?_, ?_⟩
  · simp [setLightBrightnessBody]
  · simp only [setLightBrightnessBody, Option.getD_some]
    exact max_le (by norm_num) (min_le_left 100 b)

/-- C6: `setLightColorTemperature` puts `max(153, min(500, m))` into the
PUT body's `color_temperature.mirek`; `100 ↦ 153`, `600 ↦ 500`; the
transmitted value always lies in `[153, 500]`, and the setter is a total
function of the input. -/
theorem mirek_setter_clamps (m : ℚ) :
    (setLightColorTemperatureBody m).color_temperature = some ⟨max 153 (min 500 m)⟩ ∧
    (setLightColorTemperatureBody 100).color_temperature = some ⟨153⟩ ∧
    (setLightColorTemperatureBody 600).color_temperature = some ⟨500⟩ ∧
    153 ≤ ((setLightColorTemperatureBody m).color_temperature.getD ⟨0⟩).mirek ∧
    ((setLightColorTemperatureBody m).color_temperature.getD ⟨0⟩).mirek ≤ 500 := by
  refine ⟨rfl, by decide, by decide, ?_, ?_⟩
  · simp [setLightColorTemperatureBody]
  · simp only [setLightColorTemperatureBody, Option.getD_some]
    exact max_le (by norm_num) (min_le_left 500 m)

/-- C8: the single-resource getters return the first element of the
response's `data` array when it exists and `null` otherwise; an empty (or,
on the generated path, absent) `data` array yields `null` rather than an
error — the projections are total functions of the response. -/
theorem get_absent_is_null :
    getSceneResult ⟨[]⟩ = none ∧
    (∀ (s : Scene) (rest : List Scene), getSceneResult ⟨s :: rest⟩ = some s) ∧
    getLightResult ⟨some []⟩ = none ∧
    getLightResult ⟨none⟩ = none ∧
    (∀ (l : LightGet) (rest : List LightGet), getLightResult ⟨some (l :: rest)⟩ = some l) ∧
    getSceneResultGen ⟨some []⟩ = none ∧
    getSceneResultGen ⟨none⟩ = none :=
  ⟨rfl, fun _ _ => rfl, rfl, rfl, fun _ _ => rfl, rfl, rfl⟩

/-- C2: credential resolution tries the extension preferences first — when
both preference fields are truthy the result is exactly that pair, whatever
the config file holds; otherwise the result is exactly what the config file
yields: the file pair when both `bridge` and `key` are truthy, `null` when
either is missing or empty. A source providing only one field is skipped
entirely. -/
theorem getCredentials_precedence :
    (∀ (prefs : Preferences) (file : FileState) (b k : String),
        prefs.bridgeIP = some b → prefs.applicationKey = some k → b ≠ "" → k ≠ "" →
        getCredentials prefs file = some ⟨b, k⟩) ∧
    (∀ (prefs : Preferences) (file : FileState),
        truthyStr prefs.bridgeIP = false ∨ truthyStr prefs.applicationKey = false →
        getCredentials prefs file = loadOpenHueConfig file) ∧
    (∀ (b k : String), b ≠ "" → k ≠ "" →
        loadOpenHueConfig (.content (.doc (some b) (some k))) = some ⟨b, k⟩) ∧
    (∀ (bridge key2 : Option String),
        truthyStr bridge = false ∨ truthyStr key2 = false →
        loadOpenHueConfig (.content (.doc bridge key2)) = none) := by
  refine ⟨?_, ?_, ?_, ?_⟩
  · intro prefs file b k hb hk hb' hk'
    simp [getCredentials, hb, hk, truthyStr, hb', hk']
  · intro prefs file h
    rcases h with h | h <;> simp [getCredentials, h]
  · intro b k hb hk
    simp [loadOpenHueConfig, truthyStr, hb, hk]
  · intro bridge key2 h
    rcases h with h | h <;> simp [loadOpenHueConfig, h]

/-- Witness for C2: with both sources fully populated the preferences win
exactly; with incomplete preferences the resolver returns exactly the file
pair; a file missing `key` yields null. -/
theorem getCredentials_precedence_witness :
    getCredentials ⟨some "1.2.3.4", some "prefkey"⟩
        (.content (.doc (some "10.0.0.5") (some "abc123"))) = some ⟨"1.2.3.4", "prefkey"⟩ ∧
    getCredentials ⟨some "1.2.3.4", none⟩
        (.content (.doc (some "10.0.0.5") (some "abc123"))) =
      loadOpenHueConfig (.content (.doc (some "10.0.0.5") (some "abc123"))) ∧
    loadOpenHueConfig (.content (.doc (some "10.0.0.5") (some "abc123"))) =
      some ⟨"10.0.0.5", "abc123"⟩ ∧
    loadOpenHueConfig (.content (.doc (some "10.0.0.5") none)) = none :=
  ⟨getCredentials_precedence.1 ⟨some "1.2.3.4", some "prefkey"⟩ _ "1.2.3.4" "prefkey"
      rfl rfl (by decide) (by decide),
   getCredentials_precedence.2.1 ⟨some "1.2.3.4", none⟩ _ (Or.inr (by decide)),
   getCredentials_precedence.2.2.1 "10.0.0.5" "abc123" (by decide) (by decide),
   getCredentials_precedence.2.2.2 (some "10.0.0.5") none (Or.inr (by decide))⟩

/-- C7: `loadOpenHueConfig` is a total function (the embedding has no error
channel, mirroring the `try`/`catch` that swallows every failure) and it
returns `null` for an absent file, an unreadable file, malformed YAML, a
null YAML document, and a document missing either field — all
indistinguishable from absence, so the resolver falls through to the
not-configured result. -/
theorem loadOpenHueConfig_never_throws :
    loadOpenHueConfig .absent = none ∧
    loadOpenHueConfig .unreadable = none ∧
    loadOpenHueConfig (.content .failed) = none ∧
    loadOpenHueConfig (.content .nullDoc) = none ∧
    (∀ (bridge key2 : Option String),
        truthyStr bridge = false ∨ truthyStr key2 = false →
        loadOpenHueConfig (.content (.doc bridge key2)) = none) ∧
    (∀ (file : FileState) (prefs : Preferences),
        loadOpenHueConfig file = none →
        truthyStr prefs.bridgeIP = false ∨ truthyStr prefs.applicationKey = false →
        getCredentials prefs file = none) := by
  refine ⟨rfl, rfl, rfl, rfl, ?_, ?_⟩
  · intro bridge key2 h
    rcases h with h | h <;> simp [loadOpenHueConfig, h]
  · intro file prefs hfile h
    rcases h with h | h <;> simp [getCredentials, h, hfile]

/-- Witness for C7: a document carrying only `bridge` resolves to null, and
with empty preferences the resolver reports not-configured for it. -/
theorem loadOpenHueConfig_never_throws_witness :
    loadOpenHueConfig (.content (.doc (some "10.0.0.5") none)) = none ∧
    getCredentials ⟨none, none⟩ (.content (.doc (some "10.0.0.5") none)) = none :=
  ⟨loadOpenHueConfig_never_throws.2.2.2.2.1 (some "10.0.0.5") none (Or.inr (by decide)),
   loadOpenHueConfig_never_throws.2.2.2.2.2 (.content (.doc (some "10.0.0.5") none)) ⟨none, none⟩
     (loadOpenHueConfig_never_throws.2.2.2.2.1 (some "10.0.0.5") none (Or.inr (by decide)))
     (Or.inl (by decide))⟩

/-- Counterexample for C4: the pairing timeout (10 s, `auth.ts:64`) is not
strictly longer than the general-call timeout (15 s, `client.ts:171`) — it
is strictly shorter. -/
theorem pairing_timeout_counterexample :
    authenticateTimeoutMs = 10000 ∧ hueRequestTimeoutMs = 15000 ∧
    ¬ hueRequestTimeoutMs < authenticateTimeoutMs := by
  decide

/-- C4 (amended): the transport enforces distinct request timeouts for
pairing and general calls, the pairing timeout being strictly shorter
(10 s versus 15 s); on timeout each call destroys the in-flight socket and
rejects with a timeout error. -/
theorem request_timeouts (parse : String → Option JValue) :
    authenticateTimeoutMs < hueRequestTimeoutMs ∧
    authenticateTimeoutMs ≠ hueRequestTimeoutMs ∧
    (hueRequestModel parse .timeout).destroyed = true ∧
    (hueRequestModel parse .timeout).outcome = .timeoutError ∧
    authenticateTimeoutResult.1 = true ∧
    authenticateTimeoutResult.2 = .rejected "Connection timeout" :=
  ⟨by decide, by decide, rfl, rfl, rfl, rfl⟩

/-- Counterexample for C3: on scenes referencing rooms A, A, B plus one
scene with no room reference, neither grouping helper produces an
"unassigned" bucket — the generated-path helper drops the roomless scene
(its result holds only the A and B buckets), and the hand-written helper
cannot receive a roomless scene at all (its `group` member is required, and
an empty rid is bucketed under `""`, not `"unassigned"`). -/
theorem grouping_unassigned_counterexample :
    groupScenesByRoomGen
        [⟨"s1", some ⟨"A", "room"⟩⟩, ⟨"s2", some ⟨"A", "room"⟩⟩,
         ⟨"s3", some ⟨"B", "room"⟩⟩, ⟨"s4", none⟩] =
      [("A", [⟨"s1", some ⟨"A", "room"⟩⟩, ⟨"s2", some ⟨"A", "room"⟩⟩]),
       ("B", [⟨"s3", some ⟨"B", "room"⟩⟩])] ∧
    mapGet (groupScenesByRoomGen
        [⟨"s1", some ⟨"A", "room"⟩⟩, ⟨"s2", some ⟨"A", "room"⟩⟩,
         ⟨"s3", some ⟨"B", "room"⟩⟩, ⟨"s4", none⟩]) "unassigned" = none ∧
    mapGet (groupScenesByRoom [⟨"s5", ⟨"", "room"⟩⟩]) "unassigned" = none ∧
    mapGet (groupScenesByRoom [⟨"s5", ⟨"", "room"⟩⟩]) "" = some [⟨"s5", ⟨"", "room"⟩⟩] := by
  refine ⟨by decide, by decide, by decide, by decide⟩

/-- C3 (amended): each grouping helper partitions its input by parent room
id, preserving encounter order within every bucket (each bucket is exactly
the order-preserving filter of the input); a scene with no resolvable room
reference is silently dropped by the generated-path helper (no bucket ever
contains it), and the hand-written helper buckets every scene under its raw
`group.rid` — there is no synthetic "unassigned" bucket. -/
theorem grouping_partitions_by_room :
    (∀ (scenes : List SceneGet) (r : String),
        mapGet (groupScenesByRoomGen scenes) r =
          (if (scenes.filter (fun s => keepGen s = some r)).isEmpty then none
           else some (scenes.filter (fun s => keepGen s = some r)))) ∧
    (∀ (scenes : List Scene) (r : String),
        mapGet (groupScenesByRoom scenes) r =
          (if (scenes.filter (fun s => s.group.rid = r)).isEmpty then none
           else some (scenes.filter (fun s => s.group.rid = r)))) := by
  constructor
  · intro scenes r
    have h := foldGen_mapGet scenes [] r
    rwa [mapGet_nil] at h
  · intro scenes r
    have h := foldHand_mapGet scenes [] r
    rwa [mapGet_nil] at h

/-- Counterexample for C9: the two scene-module implementations are not
functionally equivalent — a scene whose group rid is the empty string is
bucketed under `""` by the hand-written `groupScenesByRoom` and silently
dropped by the generated-path one, so the same input yields different
grouping buckets. -/
theorem scene_modules_counterexample :
    groupScenesByRoom [⟨"x", ⟨"", ""⟩⟩] = [("", [⟨"x", ⟨"", ""⟩⟩])] ∧
    groupScenesByRoomGen [Scene.toGen ⟨"x", ⟨"", ""⟩⟩] = [] ∧
    mapGet (groupScenesByRoom [⟨"x", ⟨"", ""⟩⟩]) "" = some [⟨"x", ⟨"", ""⟩⟩] ∧
    mapGet (groupScenesByRoomGen [Scene.toGen ⟨"x", ⟨"", ""⟩⟩]) "" = none := by
  refine ⟨by decide, by decide, by decide, by decide⟩

/-- C9 (amended): the two scene-module implementations agree on every
operation except the grouping of scenes without a resolvable room — given
the same transport outcome (success payload or rejection), `getScenes`,
`getScene` and `updateScene` of the two modules produce the same values,
the same null outcomes and the same error outcomes; `activateScene` builds
the identical recall body in both; and on scene lists in which every scene
carries a non-empty room rid the two `groupScenesByRoom` implementations
produce identical buckets (up to the injection of the hand-written scene
shape into the generated one). They differ only on scenes with a missing
or empty room rid, which the hand-written helper buckets under the raw rid
and the generated-path helper drops. -/
theorem scene_modules_equivalent :
    (∀ (scenes : List Scene), (∀ s ∈ scenes, s.group.rid ≠ "") →
        ∀ r, mapGet (groupScenesByRoomGen (scenes.map Scene.toGen)) r =
          (mapGet (groupScenesByRoom scenes) r).map (List.map Scene.toGen)) ∧
    (∀ (resp : ApiResponse Scene),
        getSceneResultGen (sceneApiResponse resp) = (getSceneResult resp).map Scene.toGen ∧
        getScenesResultGen (sceneApiResponse resp) = (getScenesResult resp).map Scene.toGen) ∧
    (∀ (ε : Type) (t : Except ε (ApiResponse Scene)),
        getSceneGenE t = (getSceneE t).map (Option.map Scene.toGen) ∧
        getScenesGenE t = (getScenesE t).map (List.map Scene.toGen)) ∧
    (∀ (ε : Type) (t : Except ε (ApiResponse ResourceRef)),
        updateSceneGenE t = updateSceneE t) ∧
    (∀ (action : String) (duration : Option Int),
        activateSceneBodyGen action duration = activateSceneBody action duration) := by
  refine ⟨?_, ?_, ?_, ?_, fun _ _ => rfl⟩
  · intro scenes hne r
    have hfilt : (scenes.map Scene.toGen).filter (fun s => keepGen s = some r) =
        (scenes.filter (fun s => s.group.rid = r)).map Scene.toGen := by
      induction scenes with
      | nil => rfl
      | cons s rest ih =>
        have hs : s.group.rid ≠ "" := hne s (List.mem_cons_self s rest)
        have hrest : ∀ t ∈ rest, t.group.rid ≠ "" :=
          fun t ht => hne t (List.mem_cons_of_mem s ht)
        have hkeep : keepGen (Scene.toGen s) = some s.group.rid := by
          simp [keepGen, Scene.toGen, hs]
        by_cases hr : s.group.rid = r
        · simp [List.filter_cons, hkeep, hr, ih hrest]
        · simp [List.filter_cons, hkeep, hr, ih hrest]
    have hgen := foldGen_mapGet (scenes.map Scene.toGen) [] r
    rw [mapGet_nil] at hgen
    have hhand := foldHand_mapGet scenes [] r
    rw [mapGet_nil] at hhand
    rw [groupScenesByRoomGen, hgen, groupScenesByRoom, hhand, hfilt]
    by_cases hemp : scenes.filter (fun s => s.group.rid = r) = []
    · simp [hemp]
    · simp [hemp, List.isEmpty_iff]
  · intro resp
    constructor
    · simp [getSceneResultGen, sceneApiResponse, getSceneResult, List.head?_map]
    · simp [getScenesResultGen, sceneApiResponse, getScenesResult]
  · intro ε t
    cases t with
    | error e => exact ⟨rfl, rfl⟩
    | ok resp =>
      constructor
      · simp [getSceneGenE, getSceneE, sceneApiCallE, Except.map, getSceneResultGen,
          sceneApiResponse, getSceneResult, List.head?_map]
      · simp [getScenesGenE, getScenesE, sceneApiCallE, Except.map, getScenesResultGen,
          sceneApiResponse, getScenesResult]
  · intro ε t
    cases t with
    | error e => rfl
    | ok resp => rfl

/-- Witness for C9 (amended): on a one-scene list with a non-empty room rid
the two groupings agree; the projections agree on a one-scene payload; the
two `getScene`s re-raise the same transport rejection; and the two
`updateScene`s agree on a one-identifier payload. -/
theorem scene_modules_equivalent_witness :
    mapGet (groupScenesByRoomGen ([Scene.mk "a" ⟨"A", "room"⟩].map Scene.toGen)) "A" =
      (mapGet (groupScenesByRoom [Scene.mk "a" ⟨"A", "room"⟩]) "A").map (List.map Scene.toGen) ∧
    getSceneResultGen (sceneApiResponse ⟨[Scene.mk "a" ⟨"A", "room"⟩]⟩) =
      (getSceneResult ⟨[Scene.mk "a" ⟨"A", "room"⟩]⟩).map Scene.toGen ∧
    getSceneGenE (Except.error "Connection failed: refused" :
        Except String (ApiResponse Scene)) =
      (getSceneE (Except.error "Connection failed: refused" :
        Except String (ApiResponse Scene))).map (Option.map Scene.toGen) ∧
    updateSceneGenE (Except.ok ⟨[ResourceRef.mk "id1" "scene"]⟩ :
        Except String (ApiResponse ResourceRef)) =
      updateSceneE (Except.ok ⟨[ResourceRef.mk "id1" "scene"]⟩ :
        Except String (ApiResponse ResourceRef)) ∧
    activateSceneBodyGen "active" (some 4) = activateSceneBody "active" (some 4) :=
  ⟨scene_modules_equivalent.1 [Scene.mk "a" ⟨"A", "room"⟩] (by decide) "A",
   (scene_modules_equivalent.2.1 ⟨[Scene.mk "a" ⟨"A", "room"⟩]⟩).1,
   (scene_modules_equivalent.2.2.1 String (Except.error "Connection failed: refused")).1,
   scene_modules_equivalent.2.2.2.1 String (Except.ok ⟨[ResourceRef.mk "id1" "scene"]⟩),
   scene_modules_equivalent.2.2.2.2 "active" (some 4)⟩

theorem errCheckExpr_null : errCheckExpr .null = .error () :=
  rfl

theorem getProp_descMember (e : JValue) (he : e ≠ .null) :
    getProp (some e) "description" = .ok (descMember e) := by
  cases e with
  | null => exact absurd rfl he
  | bool b => rfl
  | num n => rfl
  | str s => rfl
  | arr elems => rfl
  | obj fields => rfl

theorem errCheckExpr_no_errors (v : JValue) (hv : v ≠ .null) (h : errorsMember v = none) :
    errCheckExpr v = .ok none := by
  cases v with
  | null => exact absurd rfl hv
  | bool b => rfl
  | num n => rfl
  | str s => rfl
  | arr elems => rfl
  | obj fields =>
    have h' : objField fields "errors" = none := h
    simp [errCheckExpr, getProp, h', truthy]

theorem errCheckExpr_empty_errors (v : JValue) (h : errorsMember v = some (.arr [])) :
    errCheckExpr v = .ok none := by
  cases v with
  | obj fields =>
    have h' : objField fields "errors" = some (.arr []) := h
    simp [errCheckExpr, getProp, h', truthy, jsGtZero]
  | null => simp [errorsMember] at h
  | bool b => simp [errorsMember] at h
  | num n => simp [errorsMember] at h
  | str s => simp [errorsMember] at h
  | arr elems => simp [errorsMember] at h

theorem errCheckExpr_nonempty_errors (v e : JValue) (rest : List JValue) (he : e ≠ .null)
    (h : errorsMember v = some (.arr (e :: rest))) :
    errCheckExpr v = .ok (some (descMember e, some (.arr (e :: rest)))) := by
  cases v with
  | obj fields =>
    have h' : objField fields "errors" = some (.arr (e :: rest)) := h
    have hg : getProp (some (JValue.obj fields)) "errors" = .ok (some (.arr (e :: rest))) := by
      simp [getProp, h']
    have hlength : getProp (some (JValue.arr (e :: rest))) "length"
        = .ok (some (.num ((e :: rest).length : Int))) := by
      simp [getProp]
    have hidx : jsIndex (some (JValue.arr (e :: rest))) 0 = .ok (some e) := by
      simp [jsIndex]
    have hlen : jsGtZero (some (.num ((e :: rest).length : Int))) = true := by
      simp [jsGtZero]
    simp only [errCheckExpr, hg, truthy, hlength, hlen, hidx, getProp_descMember e he,
      if_true]
  | null => simp [errorsMember] at h
  | bool b => simp [errorsMember] at h
  | num n => simp [errorsMember] at h
  | str s => simp [errorsMember] at h
  | arr elems => simp [errorsMember] at h

/-- Counterexample for C1: a status-200 response whose body is the valid
JSON text `null` parses successfully to the JSON null value, yet the
handler rejects with the parse error (reading `.errors` off `null` throws
inside the `try`) instead of resolving the parsed payload as success, as
the claim's final clause requires. -/
theorem classification_null_counterexample :
    responseEnd 200 "null" (some JValue.null) = .parseError 200 (parsePreview "null") ∧
    ¬ responseEnd 200 "null" (some JValue.null) = .success JValue.null :=
  ⟨rfl, fun h => nomatch h⟩

/-- C1 (amended): `hueRequest` classifies every response in the fixed
priority order — network failure ⇒ connection error; HTTP status ≥ 400 ⇒
HTTP error with status and 200-character body preview, the body never
interpreted (in particular any 404, whatever its body parses to); then JSON
parse failure ⇒ parse error with status and truncated preview; a payload of
JSON `null` also lands in the parse-error branch (property access on `null`
throws inside the same `try`); then a payload whose `errors` member is a
non-empty array whose first entry is an object (or any non-null value) ⇒
API error carrying that entry's `description`, the status and the full
`errors` array; and a payload with no `errors` member, or an empty `errors`
array, resolves as success. -/
theorem hueRequest_classification :
    (∀ (parse : String → Option JValue) (msg : String),
        (hueRequestModel parse (.connError msg)).outcome
          = .connectionError ("Connection failed: " ++ msg)) ∧
    (∀ (sc : Nat) (data : String) (parsed : Option JValue), 400 ≤ sc →
        responseEnd sc data parsed = .httpError sc (data.take 200)) ∧
    (∀ (sc : Nat) (data : String), sc < 400 →
        responseEnd sc data none = .parseError sc (parsePreview data)) ∧
    (∀ (sc : Nat) (data : String), sc < 400 →
        responseEnd sc data (some .null) = .parseError sc (parsePreview data)) ∧
    (∀ (sc : Nat) (data : String) (v : JValue), sc < 400 → v ≠ .null →
        errorsMember v = none →
        responseEnd sc data (some v) = .success v) ∧
    (∀ (sc : Nat) (data : String) (v : JValue), sc < 400 →
        errorsMember v = some (.arr []) →
        responseEnd sc data (some v) = .success v) ∧
    (∀ (sc : Nat) (data : String) (v e : JValue) (rest : List JValue), sc < 400 → e ≠ .null →
        errorsMember v = some (.arr (e :: rest)) →
        responseEnd sc data (some v)
          = .apiError (descMember e) sc (some (.arr (e :: rest)))) ∧
    (∀ (data : String) (parsed : Option JValue),
        responseEnd 404 data parsed = .httpError 404 (data.take 200)) := by
  refine ⟨fun _ _ => rfl, ?_, ?_, ?_, ?_, ?_, ?_, ?_⟩
  · intro sc data parsed h
    simp [responseEnd, h]
  · intro sc data h
    simp [responseEnd, Nat.not_le.mpr h]
  · intro sc data h
    simp [responseEnd, Nat.not_le.mpr h, errCheckExpr_null]
  · intro sc data v h hv herr
    simp [responseEnd, Nat.not_le.mpr h, errCheckExpr_no_errors v hv herr]
  · intro sc data v h herr
    simp [responseEnd, Nat.not_le.mpr h, errCheckExpr_empty_errors v herr]
  · intro sc data v e rest h he herr
    simp [responseEnd, Nat.not_le.mpr h, errCheckExpr_nonempty_errors v e rest he herr]
  · intro data parsed
    simp [responseEnd]

/-- Witness for C1 (amended): each classification branch evaluated at a
concrete response — a 404 with a JSON error body yields the HTTP error (not
the API error), an unparseable 200 body the parse error, a plain data
payload success, and an `errors`-carrying 200 payload the API error with
the first description. -/
theorem hueRequest_classification_witness :
    responseEnd 404 "nf" (some (.obj [("errors", .arr [.obj [("description", .str "x")]])]))
      = .httpError 404 ("nf".take 200) ∧
    responseEnd 200 "bad" none = .parseError 200 (parsePreview "bad") ∧
    responseEnd 200 "ok" (some (.obj [("data", .arr [])]))
      = .success (.obj [("data", .arr [])]) ∧
    responseEnd 200 "er" (some (.obj [("errors", .arr [.obj [("description", .str "x")]])]))
      = .apiError (descMember (.obj [("description", .str "x")])) 200
          (some (.arr [.obj [("description", .str "x")]])) ∧
    responseEnd 200 "e2" (some (.obj [("errors", .arr [])]))
      = .success (.obj [("errors", .arr [])]) ∧
    (hueRequestModel (fun _ => none) (.connError "refused")).outcome
      = .connectionError ("Connection failed: refused") :=
  ⟨hueRequest_classification.2.2.2.2.2.2.2 "nf" _,
   hueRequest_classification.2.2.1 200 "bad" (by decide),
   hueRequest_classification.2.2.2.2.1 200 "ok" (.obj [("data", .arr [])])
     (by decide) (fun h => nomatch h) rfl,
   hueRequest_classification.2.2.2.2.2.2.1 200 "er" _ _ []
     (by decide) (fun h => nomatch h) rfl,
   hueRequest_classification.2.2.2.2.2.1 200 "e2" (.obj [("errors", .arr [])])
     (by decide) rfl,
   hueRequest_classification.1 (fun _ => none) "refused"⟩

end OpenHue
